import Mathlib

/-!
Verification of the cross-check instrumentation pass
(`cross-checks/rust-checks/rustc-plugin/src/lib.rs`).

The development shallowly embeds the plugin's logic:
* `djb2_hash` — the numeric identifier generator;
* `CrossCheckConfig.applyArg` / `CrossCheckConfig.new` — the annotation
  configuration resolver (`CrossCheckConfig::new`);
* `foldItemSimple` and friends — the `Folder` implementation
  (`CrossChecker::fold_item_simple`), with panics modelled as `Except`
  errors and the build-time `xcheck-args` feature as a boolean parameter.

Machine integers are modelled as `Nat` with explicit `% 2 ^ 32` where the
Rust code uses wrapping `u32` arithmetic.  Strings are carried as Lean
`String`s; hashing goes through their UTF-8 bytes, mirroring `str::bytes`.
-/

/-- Byte sequence of a string, as natural numbers (mirrors Rust's
`str::bytes()`; for the ASCII identifiers and keys at issue the code-point
sequence coincides with the UTF-8 byte sequence). -/
def strBytes (s : String) : List Nat :=
  s.data.map Char.toNat

/-- `djb2_hash` from the source:
`s.bytes().fold(5381u32, |h, c| h.wrapping_mul(33).wrapping_add(c as u32))`.
Wrapping `u32` arithmetic is `% 2 ^ 32`. -/
def djb2_hash (s : List Nat) : Nat :=
  s.foldl (fun h c => (h * 33 % 2 ^ 32 + c) % 2 ^ 32) 5381

/-- The rolling hash as the specification words it: start from the fixed
seed, and for each byte in order multiply the accumulator by the fixed
constant and add the byte, both operations wrapping modulo `2 ^ 32`. -/
def specRollingHash : Nat → List Nat → Nat
  | acc, [] => acc
  | acc, b :: rest => specRollingHash ((acc * 33 % 2 ^ 32 + b) % 2 ^ 32) rest

def specDerive (s : List Nat) : Nat := specRollingHash 5381 s

lemma djb2_hash_eq_specRollingHash (acc : Nat) (s : List Nat) :
    s.foldl (fun h c => (h * 33 % 2 ^ 32 + c) % 2 ^ 32) acc =
      specRollingHash acc s := by
  induction s generalizing acc with
  | nil => rfl
  | cons b rest ih => rw [List.foldl_cons, specRollingHash]; exact ih _

lemma specRollingHash_lt (acc : Nat) (s : List Nat) (h : acc < 2 ^ 32) :
    specRollingHash acc s < 2 ^ 32 := by
  induction s generalizing acc with
  | nil => exact h
  | cons b rest ih =>
    exact ih _ (Nat.mod_lt _ (by norm_num))

example : djb2_hash [] = 5381 := by decide
example : strBytes "foo" = [102, 111, 111] := by decide

/-! ## Annotation syntax (`syntax::ast` meta items, restricted to what the
resolver inspects) -/

/-- Literal kinds: the resolver only distinguishes integer literals
(`ast::LitKind::Int`, value carried as an unsigned 128-bit number, modelled
as `Nat`), string literals (`ast::LitKind::Str`) and everything else. -/
inductive LitKind where
  | int (value : Nat)
  | str (value : String)
  | otherLit
  deriving DecidableEq, Repr

mutual

/-- `ast::MetaItemKind`: a bare word, a parenthesised list of nested meta
items, or a `key = literal` pair. -/
inductive MetaItemKind where
  | word
  | list (items : List NestedMeta)
  | nameValue (lit : LitKind)

/-- `ast::MetaItem`: a named meta item with its shape. -/
inductive MetaItem where
  | mk (mname : String) (node : MetaItemKind)

/-- `ast::NestedMetaItem`: either a meta item or a bare literal.
`NestedMetaItem::meta_item()` returns `some` exactly on the first form. -/
inductive NestedMeta where
  | metaItem (mi : MetaItem)
  | literal (lit : LitKind)

end

/-- The key of a meta item (`MetaItem::name`). -/
def MetaItem.mname : MetaItem → String
  | .mk n _ => n

/-- The shape of a meta item (`MetaItem::node`). -/
def MetaItem.node : MetaItem → MetaItemKind
  | .mk _ k => k

/-- `MetaItem::value_str()`: the string value when the item is
`key = "string literal"`, otherwise `none`. -/
def MetaItem.valueStr : MetaItem → Option String
  | .mk _ (.nameValue (.str s)) => some s
  | _ => none

/-! ## Configuration resolver (`CrossCheckConfig`) -/

/-- The panics of `CrossCheckConfig::new`, modelled as error values:
an unrecognised argument keyword, a `cross_check id` whose integer literal
does not fit in `u32`, a `cross_check id` whose literal is not an integer,
and a top-level annotation shape that is neither a bare word nor a list. -/
inductive ConfigError where
  | unknownOption (keyword : String)
  | idOutOfRange (value : Nat)
  | invalidIdLiteral
  | invalidShape
  deriving DecidableEq, Repr

/-- `CrossCheckConfig`: per-annotation resolved configuration. -/
structure CrossCheckConfig where
  enabled : Bool
  cname : Option String
  id : Option Nat
  deriving DecidableEq, Repr

/-- The starting configuration of `CrossCheckConfig::new`:
`enabled = true`, no explicit name, no explicit id. -/
def CrossCheckConfig.start : CrossCheckConfig :=
  { enabled := true, cname := none, id := none }

/-- One iteration of the argument loop of `CrossCheckConfig::new`: fold one
nested meta item into the accumulated configuration.  A bare literal is
skipped (`meta_item()` is `None`); otherwise dispatch on the keyword. -/
def CrossCheckConfig.applyArg (cfg : CrossCheckConfig) (arg : NestedMeta) :
    Except ConfigError CrossCheckConfig :=
  match arg with
  | .literal _ => .ok cfg
  | .metaItem item =>
    match item.mname with
    | "never" | "disable" | "no" => .ok { cfg with enabled := false }
    | "always" | "enable" | "yes" => .ok { cfg with enabled := true }
    | "name" => .ok { cfg with cname := item.valueStr }
    | "id" =>
      match item.node with
      | .nameValue lit =>
        match lit with
        | .int id128 =>
          if id128 < 2 ^ 32 then .ok { cfg with id := some id128 }
          else .error (.idOutOfRange id128)
        | _ => .error .invalidIdLiteral
      | _ => .ok cfg
    | _ => .error (.unknownOption item.mname)

/-- Fold the argument list left-to-right (the `for` loop of
`CrossCheckConfig::new`), stopping at the first panic. -/
def CrossCheckConfig.applyArgs (cfg : CrossCheckConfig) :
    List NestedMeta → Except ConfigError CrossCheckConfig
  | [] => .ok cfg
  | a :: rest =>
    (CrossCheckConfig.applyArg cfg a).bind fun cfg' =>
      CrossCheckConfig.applyArgs cfg' rest

/-- `CrossCheckConfig::new`: resolve one `#[cross_check(...)]` annotation
into a configuration.  A bare word keeps the defaults; a list is folded
argument by argument; any other shape panics.  (The source's
`assert!(mi.name == "cross_check")` is omitted: the extension is registered
under exactly that symbol, so the assertion can never fire.) -/
def CrossCheckConfig.new (mi : MetaItem) : Except ConfigError CrossCheckConfig :=
  match mi.node with
  | .word => .ok CrossCheckConfig.start
  | .list items => CrossCheckConfig.applyArgs CrossCheckConfig.start items
  | .nameValue _ => .error .invalidShape

/-! ## Declaration tree (`syntax::ast` items, restricted to what the folder
inspects) -/

/-- Attributes, identified by what `fold_item_simple` distinguishes: the
attribute's name (`attr.name()`), plus the one attribute the pass itself
synthesizes, `#[derive(XCheckHash)]` (`quote_attr!`). -/
inductive Attr where
  | named (aname : String)
  | deriveXCheckHash
  deriving DecidableEq, Repr

/-- `attr.name()` (every modelled attribute has a name; the synthesized
derive attribute's path is `derive`). -/
def Attr.attrName : Attr → String
  | .named n => n
  | .deriveXCheckHash => "derive"

/-- The guard of the skip rule:
`attr.name().map_or(false, |name| name == "cross_check")`. -/
def Attr.isCrossCheck (a : Attr) : Bool :=
  a.attrName == "cross_check"

/-- Parameter binding patterns: `ast::PatKind::Ident` (a plain name) versus
everything else (destructuring), the only distinction the folder makes. -/
inductive Pat where
  | identPat (pname : String)
  | otherPat
  deriving DecidableEq, Repr

/-- The three data-type item kinds (`ItemKind::Struct/Enum/Union`), all
treated identically by the fold. -/
inductive DataKind where
  | structKind
  | enumKind
  | unionKind
  deriving DecidableEq, Repr

mutual

/-- `ast::Item`, restricted to the fields the `CrossChecker` folder can
observe or change: `new_id`, `new_span`, `fold_vis`, `fold_ident` and the
token field are identities for this folder and are dropped. -/
inductive Item where
  | mk (ident : String) (attrs : List Attr) (node : ItemKind)

/-- `ast::ItemKind`: functions (parameter patterns plus body block),
struct/enum/union definitions (their fields contain no nested items),
modules (the one item kind whose children are items), and everything else
(folded structurally with no nested items). -/
inductive ItemKind where
  | fnDecl (params : List Pat) (body : Block)
  | dataType (k : DataKind)
  | modKind (items : List Item)
  | otherItem

/-- `ast::Block`: a statement list. -/
inductive Block where
  | mk (stmts : List Stmt)

/-- Statements, at the granularity the folder distinguishes: a nested item
declaration, a block statement, the synthesized entry check macro call
`cross_check_raw!(FUNCTION_CALL_TAG, id)` (a macro, left alone by the
overridden `fold_mac`), a synthesized per-argument check block for the
parameter of the given name, and any other statement (no nested items). -/
inductive Stmt where
  | itemStmt (i : Item)
  | blockStmt (b : Block)
  | entryCheck (id : Nat)
  | argCheck (pname : String)
  | otherStmt

end

/-- The item's identifier text. -/
def Item.ident : Item → String
  | .mk i _ _ => i

/-- The item's attribute list. -/
def Item.attrs : Item → List Attr
  | .mk _ a _ => a

/-- The item's kind. -/
def Item.node : Item → ItemKind
  | .mk _ _ n => n

/-- `item.attrs.iter().any(|attr| ... == "cross_check")`: the marker test
of the skip rule. -/
def Item.hasCrossCheckAttr (i : Item) : Bool :=
  i.attrs.any Attr.isCrossCheck

/-- The check identifier computation of `fold_item_simple`'s `Fn` branch:
`config.id` if set, else `djb2_hash` of `config.name` if set, else
`djb2_hash` of the function's own identifier text. -/
def checkId (cfg : CrossCheckConfig) (fnIdent : String) : Nat :=
  match cfg.id with
  | some id => id
  | none =>
    match cfg.cname with
    | some n => djb2_hash (strBytes n)
    | none => djb2_hash (strBytes fnIdent)

/-- The one panic of the fold itself: `unimplemented!()` on a parameter
whose pattern is not a plain identifier, reached only with the
`xcheck-args` feature on. -/
inductive FoldError where
  | unsupportedPattern
  deriving DecidableEq, Repr

/-- The `fn_decl.inputs.iter().for_each(...)` loop: one argument-check
block per identifier-bound parameter, in declared order; `unimplemented!()`
on the first parameter bound by any other pattern. -/
def mkArgChecks : List Pat → Except FoldError (List Stmt)
  | [] => .ok []
  | .identPat n :: rest =>
    (mkArgChecks rest).bind fun rest' =>
      .ok (Stmt.argCheck n :: rest')
  | .otherPat :: _ => .error .unsupportedPattern

mutual

/-- `CrossChecker::fold_item_simple`.  `cfg` is the expander's resolved
configuration, `xargs` the build-time `cfg!(feature = "xcheck-args")`
switch.  The two early returns (`!enabled`, attribute already present) are
`noop_fold_item_simple`, which still folds the item's children with the
same folder; the `Fn` branch rebuilds the body as entry check, argument
checks, then the folded original block; the struct/enum/union branch
appends `#[derive(XCheckHash)]` after the (noop-folded) attributes. -/
def foldItemSimple (cfg : CrossCheckConfig) (xargs : Bool) :
    Item → Except FoldError Item
  | .mk ident attrs node =>
    if !cfg.enabled then
      (foldItemKind cfg xargs node).bind fun node' =>
        .ok (.mk ident attrs node')
    else if attrs.any Attr.isCrossCheck then
      (foldItemKind cfg xargs node).bind fun node' =>
        .ok (.mk ident attrs node')
    else
      match node with
      | .fnDecl params body =>
        (if xargs then mkArgChecks params else .ok []).bind fun argXs =>
          (foldBlock cfg xargs body).bind fun body' =>
            .ok (.mk ident attrs (.fnDecl params
              (.mk (Stmt.entryCheck (checkId cfg ident) :: argXs ++ [Stmt.blockStmt body']))))
      | .dataType k =>
        .ok (.mk ident (attrs ++ [Attr.deriveXCheckHash]) (.dataType k))
      | .modKind items =>
        (foldItems cfg xargs items).bind fun items' =>
          .ok (.mk ident attrs (.modKind items'))
      | .otherItem => .ok (.mk ident attrs .otherItem)

/-- `noop_fold_item_kind` for this folder: functions fold their body block,
data types fold their (item-free) fields, modules fold their item list. -/
def foldItemKind (cfg : CrossCheckConfig) (xargs : Bool) :
    ItemKind → Except FoldError ItemKind
  | .fnDecl params body =>
    (foldBlock cfg xargs body).bind fun body' =>
      .ok (.fnDecl params body')
  | .dataType k => .ok (.dataType k)
  | .modKind items =>
    (foldItems cfg xargs items).bind fun items' =>
      .ok (.modKind items')
  | .otherItem => .ok .otherItem

/-- Fold a list of child items in order. -/
def foldItems (cfg : CrossCheckConfig) (xargs : Bool) :
    List Item → Except FoldError (List Item)
  | [] => .ok []
  | i :: rest =>
    (foldItemSimple cfg xargs i).bind fun i' =>
      (foldItems cfg xargs rest).bind fun rest' =>
        .ok (i' :: rest')

/-- `fold_block` (not overridden, hence `noop_fold_block`): fold each
statement in order. -/
def foldBlock (cfg : CrossCheckConfig) (xargs : Bool) :
    Block → Except FoldError Block
  | .mk stmts =>
    (foldStmts cfg xargs stmts).bind fun stmts' =>
      .ok (.mk stmts')

/-- Fold a statement list in order. -/
def foldStmts (cfg : CrossCheckConfig) (xargs : Bool) :
    List Stmt → Except FoldError (List Stmt)
  | [] => .ok []
  | s :: rest =>
    (foldStmt cfg xargs s).bind fun s' =>
      (foldStmts cfg xargs rest).bind fun rest' =>
        .ok (s' :: rest')

/-- `noop_fold_stmt` for this folder: item statements fold the item, block
statements fold the block, macro statements (the synthesized checks) are
returned unchanged by the overridden `fold_mac`, anything else has no
nested items and is unchanged. -/
def foldStmt (cfg : CrossCheckConfig) (xargs : Bool) :
    Stmt → Except FoldError Stmt
  | .itemStmt i =>
    (foldItemSimple cfg xargs i).bind fun i' =>
      .ok (.itemStmt i')
  | .blockStmt b =>
    (foldBlock cfg xargs b).bind fun b' =>
      .ok (.blockStmt b')
  | .entryCheck id => .ok (.entryCheck id)
  | .argCheck n => .ok (.argCheck n)
  | .otherStmt => .ok .otherStmt

end

/-- `CrossCheckExpander::expand` on an item: resolve the annotation's
configuration with `CrossCheckConfig::new`, then fold the item. -/
def expandItem (mi : MetaItem) (xargs : Bool) (item : Item) :
    Except ConfigError (Except FoldError Item) :=
  (CrossCheckConfig.new mi).map fun cfg => foldItemSimple cfg xargs item

/-- Modelled from the spec: the host expansion mechanism (an out-of-scope
external collaborator, §1/§6) removes the triggering `#[cross_check(...)]`
attribute from a declaration before invoking the pass on it. -/
def hostStripTrigger (i : Item) : Item :=
  .mk i.ident (i.attrs.filter fun a => !a.isCrossCheck) i.node

/-- The argument-check statement a plain-identifier parameter produces
(`otherPat` never reaches this in a successful run). -/
def argCheckOf : Pat → Stmt
  | .identPat n => .argCheck n
  | .otherPat => .otherStmt

/-- Statements that contain no nested items or blocks and are untouched by
the folder. -/
def isPlainStmt : Stmt → Bool
  | .otherStmt => true
  | _ => false

/-- A block all of whose statements are plain. -/
def blockPlain : Block → Bool
  | .mk stmts => stmts.all isPlainStmt

/-! ## Helper lemmas about the fold -/

lemma Except.ok_bind {ε α β : Type} (a : α) (f : α → Except ε β) :
    (Except.ok a : Except ε α).bind f = f a := rfl

lemma Except.error_bind {ε α β : Type} (e : ε) (f : α → Except ε β) :
    (Except.error e : Except ε α).bind f = .error e := rfl

lemma foldItemSimple_fn (cfg : CrossCheckConfig) (xargs : Bool)
    (ident : String) (attrs : List Attr) (params : List Pat) (body : Block)
    (argXs : List Stmt) (body' : Block)
    (hen : cfg.enabled = true) (hm : attrs.any Attr.isCrossCheck = false)
    (hargs : (if xargs then mkArgChecks params else .ok []) = .ok argXs)
    (hb : foldBlock cfg xargs body = .ok body') :
    foldItemSimple cfg xargs (.mk ident attrs (.fnDecl params body)) =
      .ok (.mk ident attrs (.fnDecl params
        (.mk (Stmt.entryCheck (checkId cfg ident) :: argXs ++ [Stmt.blockStmt body'])))) := by
  simp [foldItemSimple, hen, hm, hargs, hb, Except.ok_bind]

lemma foldItemSimple_marked (cfg : CrossCheckConfig) (xargs : Bool)
    (ident : String) (attrs : List Attr) (node : ItemKind)
    (hm : attrs.any Attr.isCrossCheck = true) :
    foldItemSimple cfg xargs (.mk ident attrs node) =
      (foldItemKind cfg xargs node).map fun node' => Item.mk ident attrs node' := by
  have h1 : foldItemSimple cfg xargs (.mk ident attrs node) =
      (foldItemKind cfg xargs node).bind fun node' => .ok (.mk ident attrs node') := by
    simp only [foldItemSimple.eq_def]
    rcases em ((!cfg.enabled) = true) with h | h
    · rw [if_pos h]
    · rw [if_neg h, if_pos hm]
  rw [h1]
  cases foldItemKind cfg xargs node <;> rfl

/-- With a disabled configuration the whole fold is the deep identity:
every branch of every fold function is a structure-preserving noop. -/
lemma fold_disabled (cfg : CrossCheckConfig) (hc : cfg.enabled = false)
    (xargs : Bool) :
    (∀ i : Item, foldItemSimple cfg xargs i = .ok i) ∧
    (∀ l : List Item, foldItems cfg xargs l = .ok l) ∧
    (∀ b : Block, foldBlock cfg xargs b = .ok b) ∧
    (∀ l : List Stmt, foldStmts cfg xargs l = .ok l) ∧
    (∀ s : Stmt, foldStmt cfg xargs s = .ok s) ∧
    (∀ k : ItemKind, foldItemKind cfg xargs k = .ok k) := by
  apply foldItemSimple.mutual_induct cfg xargs
  · intro i attrs node h ih
    rw [foldItemSimple.eq_def]
    simp [h, ih, Except.ok_bind]
  · intro i attrs node h1 h2 ih
    exact absurd (by simp [hc]) h1
  · intro i attrs h1 h2 params body ih
    exact absurd (by simp [hc]) h1
  · intro i attrs h1 h2 k
    exact absurd (by simp [hc]) h1
  · intro i attrs h1 h2 items ih
    exact absurd (by simp [hc]) h1
  · intro i attrs h1 h2
    exact absurd (by simp [hc]) h1
  · intro params body ih
    simp [foldItemKind, ih, Except.ok_bind]
  · intro k
    simp [foldItemKind]
  · intro items ih
    simp [foldItemKind, ih, Except.ok_bind]
  · simp [foldItemKind]
  · intro stmts ih
    simp [foldBlock, ih, Except.ok_bind]
  · intro i ih
    simp [foldStmt, ih, Except.ok_bind]
  · intro b ih
    simp [foldStmt, ih, Except.ok_bind]
  · intro id
    simp [foldStmt]
  · intro n
    simp [foldStmt]
  · simp [foldStmt]
  · simp [foldItems]
  · intro i rest ih1 ih2
    simp [foldItems, ih1, ih2, Except.ok_bind]
  · simp [foldStmts]
  · intro s rest ih1 ih2
    simp [foldStmts, ih1, ih2, Except.ok_bind]

lemma foldStmt_plain (cfg : CrossCheckConfig) (xargs : Bool) (s : Stmt)
    (h : isPlainStmt s = true) : foldStmt cfg xargs s = .ok s := by
  cases s <;> simp_all [isPlainStmt, foldStmt]

lemma foldStmts_plain (cfg : CrossCheckConfig) (xargs : Bool) :
    ∀ l : List Stmt, l.all isPlainStmt = true → foldStmts cfg xargs l = .ok l := by
  intro l
  induction l with
  | nil => intro _; rfl
  | cons s rest ih =>
    intro h
    rw [List.all_cons, Bool.and_eq_true] at h
    simp [foldStmts, foldStmt_plain cfg xargs s h.1, ih h.2, Except.ok_bind]

lemma foldBlock_plain (cfg : CrossCheckConfig) (xargs : Bool) (b : Block)
    (h : blockPlain b = true) : foldBlock cfg xargs b = .ok b := by
  cases b with
  | mk stmts =>
    simp [foldBlock, foldStmts_plain cfg xargs stmts h, Except.ok_bind]

lemma mkArgChecks_all_ident :
    ∀ params : List Pat, (∀ p ∈ params, ∃ n, p = Pat.identPat n) →
      mkArgChecks params = .ok (params.map argCheckOf) := by
  intro params
  induction params with
  | nil => intro _; rfl
  | cons p rest ih =>
    intro h
    obtain ⟨n, hn⟩ := h p (by simp)
    subst hn
    simp [mkArgChecks, ih fun q hq => h q (by simp [hq]), Except.ok_bind,
      argCheckOf]

lemma mkArgChecks_error_of_other :
    ∀ params : List Pat, Pat.otherPat ∈ params →
      mkArgChecks params = .error .unsupportedPattern := by
  intro params
  induction params with
  | nil => intro h; cases h
  | cons p rest ih =>
    intro h
    cases p with
    | identPat n =>
      have hrest : Pat.otherPat ∈ rest := by
        rcases List.mem_cons.mp h with h1 | h1
        · cases h1
        · exact h1
      simp [mkArgChecks, ih hrest, Except.error_bind]
    | otherPat => simp [mkArgChecks]

lemma any_isCrossCheck_filter (l : List Attr) :
    (l.filter fun a => !a.isCrossCheck).any Attr.isCrossCheck = false := by
  induction l with
  | nil => rfl
  | cons a t ih => cases h : a.isCrossCheck <;> simp [List.filter, h, ih]

lemma any_isCrossCheck_append_derive (attrs : List Attr) :
    (attrs ++ [Attr.deriveXCheckHash]).any Attr.isCrossCheck =
      attrs.any Attr.isCrossCheck := by
  simp [List.any_append, Attr.isCrossCheck, Attr.attrName]

/-! ## The annotation grammar of the specification (§4.2/§6), used to state
which argument lists are valid -/

/-- The six enable/disable toggle keywords. -/
def toggleKeys : List String := ["never", "disable", "no", "always", "enable", "yes"]

/-- The recognised argument keywords. -/
def recognizedKeys : List String := toggleKeys ++ ["name", "id"]

/-- An argument matching the specification's annotation grammar: a bare
toggle keyword, `name = <string literal>`, or `id = <integer literal>`
fitting in 32 unsigned bits. -/
def specValidArg : NestedMeta → Bool
  | .metaItem (.mk kw .word) => toggleKeys.contains kw
  | .metaItem (.mk kw (.nameValue (.str _))) => kw == "name"
  | .metaItem (.mk kw (.nameValue (.int n))) => kw == "id" && decide (n < 2 ^ 32)
  | _ => false

lemma applyArg_ok_of_valid (cfg : CrossCheckConfig) (a : NestedMeta)
    (h : specValidArg a = true) :
    ∃ cfg', CrossCheckConfig.applyArg cfg a = .ok cfg' := by
  cases a with
  | literal lit => exact ⟨cfg, rfl⟩
  | metaItem mi =>
    obtain ⟨kw, node⟩ := mi
    cases node with
    | word =>
      simp [specValidArg, toggleKeys] at h
      rcases h with h | h | h | h | h | h <;> subst h <;> exact ⟨_, rfl⟩
    | nameValue lit =>
      cases lit with
      | str s =>
        simp [specValidArg] at h
        subst h
        exact ⟨_, rfl⟩
      | int n =>
        simp [specValidArg] at h
        obtain ⟨h1, h2⟩ := h
        subst h1
        exact ⟨{ cfg with id := some n }, by
          simp [CrossCheckConfig.applyArg, MetaItem.mname, MetaItem.node, h2]⟩
      | otherLit => simp [specValidArg] at h
    | list items => simp [specValidArg] at h

lemma applyArgs_ok_of_valid :
    ∀ (items : List NestedMeta) (cfg : CrossCheckConfig),
      (∀ a ∈ items, specValidArg a = true) →
      ∃ cfg', CrossCheckConfig.applyArgs cfg items = .ok cfg' := by
  intro items
  induction items with
  | nil => exact fun cfg _ => ⟨cfg, rfl⟩
  | cons a rest ih =>
    intro cfg h
    obtain ⟨cfg1, h1⟩ := applyArg_ok_of_valid cfg a (h a (by simp))
    obtain ⟨cfg2, h2⟩ := ih cfg1 fun x hx => h x (by simp [hx])
    exact ⟨cfg2, by simp [CrossCheckConfig.applyArgs, h1, h2, Except.ok_bind]⟩

lemma applyArg_unknown (cfg : CrossCheckConfig) (kw : String)
    (node : MetaItemKind) (h : recognizedKeys.contains kw = false) :
    CrossCheckConfig.applyArg cfg (.metaItem (.mk kw node)) =
      .error (.unknownOption kw) := by
  simp [recognizedKeys, toggleKeys] at h
  obtain ⟨h1, h2, h3, h4, h5, h6, h7, h8⟩ := h
  simp [CrossCheckConfig.applyArg, MetaItem.mname, h1, h2, h3, h4, h5, h6, h7, h8]

lemma applyArg_id_out_of_range (cfg : CrossCheckConfig) (n : Nat)
    (h : 2 ^ 32 ≤ n) :
    CrossCheckConfig.applyArg cfg (.metaItem (.mk "id" (.nameValue (.int n)))) =
      .error (.idOutOfRange n) := by
  have h' : ¬ n < 2 ^ 32 := not_lt.mpr h
  simp [CrossCheckConfig.applyArg, MetaItem.mname, MetaItem.node, h']
  exact h

/-! ## Claims -/

/-- C3: `djb2_hash` (the spec's `derive`) is a total deterministic function
on byte strings whose value is always a 32-bit quantity and equals the
spec's rolling hash: start from the fixed seed 5381 and, per byte in order,
multiply by 33 and add the byte, both wrapping modulo `2 ^ 32`; the empty
string yields the seed. -/
theorem c3_derive_rolling_hash (s : List Nat) :
    djb2_hash s = specDerive s ∧ djb2_hash s < 2 ^ 32 ∧ djb2_hash [] = 5381 := by
  have he : djb2_hash s = specRollingHash 5381 s :=
    djb2_hash_eq_specRollingHash 5381 s
  refine ⟨he, ?_, rfl⟩
  rw [he]
  exact specRollingHash_lt 5381 s (by norm_num)

/-- C1: the Check Identifier embedded in the synthesized entry call is
`config.id` when present (so `id` wins over `name`), else the hash of
`config.name` when present, else the hash of the function's own identifier
text; a bare annotation resolves to the default configuration, and the
entry call synthesized for an instrumented function carries exactly
`checkId config ident`. -/
theorem c1_check_identifier :
    (∀ (e : Bool) (n : String) (i : Nat) (ident : String),
      checkId ⟨e, some n, some i⟩ ident = i) ∧
    (∀ (e : Bool) (n ident : String),
      checkId ⟨e, some n, none⟩ ident = djb2_hash (strBytes n)) ∧
    (∀ (e : Bool) (ident : String),
      checkId ⟨e, none, none⟩ ident = djb2_hash (strBytes ident)) ∧
    CrossCheckConfig.new (.mk "cross_check" .word) = .ok ⟨true, none, none⟩ ∧
    (∀ (cfg : CrossCheckConfig) (xargs : Bool) (ident : String)
        (attrs : List Attr) (params : List Pat) (body : Block)
        (argXs : List Stmt) (body' : Block),
      cfg.enabled = true →
      attrs.any Attr.isCrossCheck = false →
      (if xargs then mkArgChecks params else .ok []) = .ok argXs →
      foldBlock cfg xargs body = .ok body' →
      foldItemSimple cfg xargs (.mk ident attrs (.fnDecl params body)) =
        .ok (.mk ident attrs (.fnDecl params
          (.mk (Stmt.entryCheck (checkId cfg ident) :: argXs ++
            [Stmt.blockStmt body']))))) := by
  refine ⟨fun e n i ident => rfl, fun e n ident => rfl, fun e ident => rfl,
    rfl, ?_⟩
  intro cfg xargs ident attrs params body argXs body' hen hm hargs hb
  exact foldItemSimple_fn cfg xargs ident attrs params body argXs body'
    hen hm hargs hb

/-- Witness for C1 at concrete inputs: `id = 42` beats `name = "x"`, the
name is hashed when no id is given, a bare annotation on `foo` hashes
`"foo"`, and the entry call of an instrumented `foo` carries that value. -/
theorem c1_check_identifier_witness :
    checkId ⟨true, some "x", some 42⟩ "foo" = 42 ∧
    checkId ⟨true, some "x", none⟩ "foo" = djb2_hash (strBytes "x") ∧
    checkId ⟨true, none, none⟩ "foo" = djb2_hash (strBytes "foo") ∧
    foldItemSimple ⟨true, none, none⟩ false
        (.mk "foo" [] (.fnDecl [] (.mk []))) =
      .ok (.mk "foo" [] (.fnDecl []
        (.mk (Stmt.entryCheck (checkId ⟨true, none, none⟩ "foo") :: [] ++
          [Stmt.blockStmt (.mk [])])))) :=
  ⟨c1_check_identifier.1 true "x" 42 "foo",
   c1_check_identifier.2.1 true "x" "foo",
   c1_check_identifier.2.2.1 true "foo",
   c1_check_identifier.2.2.2.2 ⟨true, none, none⟩ false "foo" [] [] (.mk [])
     [] (.mk []) rfl rfl rfl rfl⟩

/-- C2: the replacement body of an instrumented function is exactly: the
entry check carrying the Check Identifier, then the argument checks (one
per parameter, in declared order, when the feature is on; none when it is
off), then the recursively folded original block — nothing else. -/
theorem c2_instrumented_body_shape
    (cfg : CrossCheckConfig) (xargs : Bool) (ident : String)
    (attrs : List Attr) (params : List Pat) (body : Block)
    (argXs : List Stmt) (body' : Block)
    (hen : cfg.enabled = true) (hm : attrs.any Attr.isCrossCheck = false)
    (hargs : (if xargs then mkArgChecks params else .ok []) = .ok argXs)
    (hb : foldBlock cfg xargs body = .ok body') :
    foldItemSimple cfg xargs (.mk ident attrs (.fnDecl params body)) =
      .ok (.mk ident attrs (.fnDecl params
        (.mk (Stmt.entryCheck (checkId cfg ident) :: argXs ++
          [Stmt.blockStmt body'])))) ∧
    (xargs = true → (∀ p ∈ params, ∃ n, p = Pat.identPat n) →
      argXs = params.map argCheckOf) ∧
    (xargs = false → argXs = []) := by
  refine ⟨foldItemSimple_fn cfg xargs ident attrs params body argXs body'
    hen hm hargs hb, ?_, ?_⟩
  · intro hx hall
    subst hx
    simp only [if_pos] at hargs
    rw [mkArgChecks_all_ident params hall] at hargs
    injection hargs with h
    exact h.symm
  · intro hx
    subst hx
    simp at hargs
    exact hargs

/-- Witness for C2: a two-parameter function with the feature on gains the
entry check and both argument checks in declared order before the body. -/
theorem c2_instrumented_body_shape_witness :
    foldItemSimple ⟨true, none, none⟩ true
        (.mk "f" [] (.fnDecl [Pat.identPat "a", Pat.identPat "b"]
          (.mk [Stmt.otherStmt]))) =
      .ok (.mk "f" [] (.fnDecl [Pat.identPat "a", Pat.identPat "b"]
        (.mk (Stmt.entryCheck (checkId ⟨true, none, none⟩ "f") ::
          [Stmt.argCheck "a", Stmt.argCheck "b"] ++
          [Stmt.blockStmt (.mk [Stmt.otherStmt])])))) ∧
    [Stmt.argCheck "a", Stmt.argCheck "b"] =
      ([Pat.identPat "a", Pat.identPat "b"] : List Pat).map argCheckOf := by
  have h := c2_instrumented_body_shape ⟨true, none, none⟩ true "f" []
    [Pat.identPat "a", Pat.identPat "b"] (.mk [Stmt.otherStmt])
    [Stmt.argCheck "a", Stmt.argCheck "b"] (.mk [Stmt.otherStmt])
    rfl rfl rfl rfl
  refine ⟨h.1, h.2.1 rfl ?_⟩
  intro p hp
  simp at hp
  rcases hp with h1 | h1 <;> subst h1
  · exact ⟨"a", rfl⟩
  · exact ⟨"b", rfl⟩

/-- C4: a declaration that already carries a `cross_check` attribute keeps
its identifier and attribute list untouched while its children are still
folded; consequently a function with its own annotation nested in an
enabled blanket scope is skipped by the outer pass and, once its own
expansion runs (the host having stripped the trigger attribute), is
instrumented exactly once, with the identifier of its own configuration. -/
theorem c4_override_escape :
    (∀ (cfg : CrossCheckConfig) (xargs : Bool) (ident : String)
        (attrs : List Attr) (node : ItemKind),
      attrs.any Attr.isCrossCheck = true →
      foldItemSimple cfg xargs (.mk ident attrs node) =
        (foldItemKind cfg xargs node).map fun node' =>
          Item.mk ident attrs node') ∧
    (∀ (scopeCfg ownCfg : CrossCheckConfig) (ownMi : MetaItem)
        (ident : String) (attrs : List Attr) (params : List Pat) (body : Block),
      attrs.any Attr.isCrossCheck = true →
      blockPlain body = true →
      CrossCheckConfig.new ownMi = .ok ownCfg →
      ownCfg.enabled = true →
      foldItemSimple scopeCfg false (.mk ident attrs (.fnDecl params body)) =
          .ok (.mk ident attrs (.fnDecl params body)) ∧
        foldItemSimple ownCfg false
            (hostStripTrigger (.mk ident attrs (.fnDecl params body))) =
          .ok (.mk ident (attrs.filter fun a => !a.isCrossCheck)
            (.fnDecl params (.mk [Stmt.entryCheck (checkId ownCfg ident),
              Stmt.blockStmt body])))) := by
  constructor
  · exact fun cfg xargs ident attrs node hm =>
      foldItemSimple_marked cfg xargs ident attrs node hm
  · intro scopeCfg ownCfg ownMi ident attrs params body hm hplain hnew hen
    constructor
    · rw [foldItemSimple_marked scopeCfg false ident attrs _ hm]
      have hb : foldBlock scopeCfg false body = .ok body :=
        foldBlock_plain scopeCfg false body hplain
      simp [foldItemKind, hb, Except.ok_bind, Except.map]
    · have hm2 : ((attrs.filter fun a => !a.isCrossCheck).any
          Attr.isCrossCheck) = false := any_isCrossCheck_filter attrs
      have hb : foldBlock ownCfg false body = .ok body :=
        foldBlock_plain ownCfg false body hplain
      have h := foldItemSimple_fn ownCfg false ident
        (attrs.filter fun a => !a.isCrossCheck) params body [] body
        hen hm2 rfl hb
      simpa [hostStripTrigger, Item.ident, Item.attrs, Item.node] using h

/-- Witness for C4: a marked module is shell-preserved with children
folded, and a marked function under an arbitrary enabled scope pass stays
unchanged, then its own `id = 7` expansion instruments it exactly once
with identifier 7. -/
theorem c4_override_escape_witness :
    (foldItemSimple ⟨true, none, none⟩ false
        (.mk "m" [Attr.named "cross_check"] (.modKind [])) =
      (foldItemKind ⟨true, none, none⟩ false (.modKind [])).map fun node' =>
        Item.mk "m" [Attr.named "cross_check"] node') ∧
    (foldItemSimple ⟨true, none, none⟩ false
        (.mk "f" [Attr.named "cross_check"] (.fnDecl [] (.mk []))) =
      .ok (.mk "f" [Attr.named "cross_check"] (.fnDecl [] (.mk []))) ∧
    foldItemSimple ⟨true, none, some 7⟩ false
        (hostStripTrigger (.mk "f" [Attr.named "cross_check"]
          (.fnDecl [] (.mk [])))) =
      .ok (.mk "f" [] (.fnDecl [] (.mk [Stmt.entryCheck 7,
        Stmt.blockStmt (.mk [])])))) := by
  constructor
  · exact c4_override_escape.1 ⟨true, none, none⟩ false "m"
      [Attr.named "cross_check"] (.modKind []) rfl
  · have h := c4_override_escape.2 ⟨true, none, none⟩ ⟨true, none, some 7⟩
      (.mk "cross_check" (.list [.metaItem (.mk "id" (.nameValue (.int 7)))]))
      "f" [Attr.named "cross_check"] [] (.mk []) rfl rfl rfl rfl
    exact ⟨h.1, by simpa [checkId] using h.2⟩

/-- C5 counterexample: instrumenting a plain unannotated function `f` adds
no marker — the transformed item's attribute list is still empty and the
marker test on it is `false`, contradicting the claim that every
instrumented function carries the already-has-cross-check marker. -/
theorem c5_counterexample :
    foldItemSimple ⟨true, none, none⟩ false
        (.mk "f" [] (.fnDecl [] (.mk []))) =
      .ok (.mk "f" [] (.fnDecl []
        (.mk [Stmt.entryCheck (djb2_hash (strBytes "f")),
          Stmt.blockStmt (.mk [])]))) ∧
    (Item.mk "f" [] (.fnDecl []
        (.mk [Stmt.entryCheck (djb2_hash (strBytes "f")),
          Stmt.blockStmt (.mk [])]))).hasCrossCheckAttr = false :=
  ⟨rfl, rfl⟩

/-- C5 (amended): the injector adds no marker — the transformed function's
attribute list is exactly the original's (so it is unmarked whenever the
input was), and a second enabled pass over the result of instrumenting a
plain-bodied function wraps the body again instead of leaving it alone. -/
theorem c5_no_marker_added :
    (∀ (cfg : CrossCheckConfig) (xargs : Bool) (ident : String)
        (attrs : List Attr) (params : List Pat) (body : Block)
        (argXs : List Stmt) (body' : Block),
      cfg.enabled = true →
      attrs.any Attr.isCrossCheck = false →
      (if xargs then mkArgChecks params else .ok []) = .ok argXs →
      foldBlock cfg xargs body = .ok body' →
      (foldItemSimple cfg xargs
          (.mk ident attrs (.fnDecl params body))).map Item.attrs =
        .ok attrs) ∧
    (∀ (cfg : CrossCheckConfig) (ident : String) (attrs : List Attr)
        (params : List Pat) (body : Block),
      cfg.enabled = true →
      attrs.any Attr.isCrossCheck = false →
      blockPlain body = true →
      foldItemSimple cfg false (.mk ident attrs (.fnDecl params
          (.mk [Stmt.entryCheck (checkId cfg ident), Stmt.blockStmt body]))) =
        .ok (.mk ident attrs (.fnDecl params
          (.mk [Stmt.entryCheck (checkId cfg ident),
            Stmt.blockStmt (.mk [Stmt.entryCheck (checkId cfg ident),
              Stmt.blockStmt body])])))) := by
  constructor
  · intro cfg xargs ident attrs params body argXs body' hen hm hargs hb
    rw [foldItemSimple_fn cfg xargs ident attrs params body argXs body'
      hen hm hargs hb]
    rfl
  · intro cfg ident attrs params body hen hm hplain
    have hb1 : foldBlock cfg false body = .ok body :=
      foldBlock_plain cfg false body hplain
    have hb : foldBlock cfg false
        (.mk [Stmt.entryCheck (checkId cfg ident), Stmt.blockStmt body]) =
        .ok (.mk [Stmt.entryCheck (checkId cfg ident), Stmt.blockStmt body]) := by
      simp [foldBlock, foldStmts, foldStmt, hb1, Except.ok_bind]
    have h := foldItemSimple_fn cfg false ident attrs params
      (.mk [Stmt.entryCheck (checkId cfg ident), Stmt.blockStmt body]) []
      (.mk [Stmt.entryCheck (checkId cfg ident), Stmt.blockStmt body])
      hen hm rfl hb
    simpa using h

/-- Witness for C5 (amended) at a concrete function: the attributes come
through unchanged and a second pass double-wraps the body. -/
theorem c5_no_marker_added_witness :
    (foldItemSimple ⟨true, none, none⟩ false
        (.mk "f" [Attr.named "inline"] (.fnDecl [] (.mk [])))).map Item.attrs =
      .ok [Attr.named "inline"] ∧
    foldItemSimple ⟨true, none, none⟩ false (.mk "f" [] (.fnDecl []
        (.mk [Stmt.entryCheck (checkId ⟨true, none, none⟩ "f"),
          Stmt.blockStmt (.mk [])]))) =
      .ok (.mk "f" [] (.fnDecl []
        (.mk [Stmt.entryCheck (checkId ⟨true, none, none⟩ "f"),
          Stmt.blockStmt (.mk [Stmt.entryCheck (checkId ⟨true, none, none⟩ "f"),
            Stmt.blockStmt (.mk [])])]))) :=
  ⟨c5_no_marker_added.1 ⟨true, none, none⟩ false "f" [Attr.named "inline"]
     [] (.mk []) [] (.mk []) rfl rfl rfl rfl,
   c5_no_marker_added.2 ⟨true, none, none⟩ "f" [] [] (.mk []) rfl rfl rfl⟩

/-- C6 counterexample: folding with a disabled configuration returns the
declaration unchanged and unmarked — no inertness marker is added,
contradicting the claim that a disabled declaration is still marked as
visited. -/
theorem c6_counterexample :
    foldItemSimple ⟨false, none, none⟩ false
        (.mk "f" [] (.fnDecl [] (.mk []))) =
      .ok (.mk "f" [] (.fnDecl [] (.mk []))) ∧
    (Item.mk "f" [] (.fnDecl [] (.mk []))).hasCrossCheckAttr = false :=
  ⟨rfl, rfl⟩

/-- C6 (amended): with `enabled = false` the fold is the deep identity on
the declaration — structure byte-for-byte unchanged and no marker of any
kind added, so nothing prevents a later broader-scope pass from processing
it again. -/
theorem c6_disabled_identity (cfg : CrossCheckConfig)
    (hc : cfg.enabled = false) (xargs : Bool) (i : Item) :
    foldItemSimple cfg xargs i = .ok i :=
  (fold_disabled cfg hc xargs).1 i

/-- Witness for C6 (amended) at a concrete disabled configuration and
declaration. -/
theorem c6_disabled_identity_witness :
    foldItemSimple ⟨false, none, none⟩ false
        (.mk "g" [Attr.named "repr"] (.dataType .structKind)) =
      .ok (.mk "g" [Attr.named "repr"] (.dataType .structKind)) :=
  c6_disabled_identity ⟨false, none, none⟩ rfl false
    (.mk "g" [Attr.named "repr"] (.dataType .structKind))

/-- C7: configuration resolution fails with `UnknownOption`, reporting the
keyword, on any argument whose keyword is unrecognised; fails with
`IdOutOfRange`, reporting the value, on an `id` integer literal that does
not fit in 32 unsigned bits; and succeeds on every argument list matching
the annotation grammar. -/
theorem c7_config_errors :
    (∀ (cfg : CrossCheckConfig) (kw : String) (node : MetaItemKind),
      recognizedKeys.contains kw = false →
      CrossCheckConfig.applyArg cfg (.metaItem (.mk kw node)) =
        .error (.unknownOption kw)) ∧
    (∀ (cfg : CrossCheckConfig) (n : Nat), 2 ^ 32 ≤ n →
      CrossCheckConfig.applyArg cfg
          (.metaItem (.mk "id" (.nameValue (.int n)))) =
        .error (.idOutOfRange n)) ∧
    (∀ items : List NestedMeta, (∀ a ∈ items, specValidArg a = true) →
      ∃ cfg, CrossCheckConfig.new (.mk "cross_check" (.list items)) =
        .ok cfg) := by
  refine ⟨applyArg_unknown, applyArg_id_out_of_range, ?_⟩
  intro items h
  exact applyArgs_ok_of_valid items CrossCheckConfig.start h

/-- Witness for C7: the keyword `frobnicate` is rejected as unknown,
`id = 2 ^ 32` is rejected as out of range, and `(enable, id = 42)` resolves
without error. -/
theorem c7_config_errors_witness :
    CrossCheckConfig.applyArg CrossCheckConfig.start
        (.metaItem (.mk "frobnicate" .word)) =
      .error (.unknownOption "frobnicate") ∧
    CrossCheckConfig.applyArg CrossCheckConfig.start
        (.metaItem (.mk "id" (.nameValue (.int (2 ^ 32))))) =
      .error (.idOutOfRange (2 ^ 32)) ∧
    ∃ cfg, CrossCheckConfig.new (.mk "cross_check"
        (.list [.metaItem (.mk "enable" .word),
          .metaItem (.mk "id" (.nameValue (.int 42)))])) = .ok cfg :=
  ⟨c7_config_errors.1 CrossCheckConfig.start "frobnicate" .word (by decide),
   c7_config_errors.2.1 CrossCheckConfig.start (2 ^ 32) (le_refl _),
   c7_config_errors.2.2 [.metaItem (.mk "enable" .word),
     .metaItem (.mk "id" (.nameValue (.int 42)))] (by decide)⟩

/-- C8 counterexample: the data-type branch appends one
`#[derive(XCheckHash)]` marker, but running the pass a second time over
the result appends a second copy — the marker count goes from 1 to 2, so
the claimed never-duplicated property is false. -/
theorem c8_counterexample :
    foldItemSimple ⟨true, none, none⟩ false
        (.mk "S" [Attr.named "repr"] (.dataType .structKind)) =
      .ok (.mk "S" [Attr.named "repr", Attr.deriveXCheckHash]
        (.dataType .structKind)) ∧
    foldItemSimple ⟨true, none, none⟩ false
        (.mk "S" [Attr.named "repr", Attr.deriveXCheckHash]
          (.dataType .structKind)) =
      .ok (.mk "S" [Attr.named "repr", Attr.deriveXCheckHash,
        Attr.deriveXCheckHash] (.dataType .structKind)) ∧
    [Attr.named "repr", Attr.deriveXCheckHash,
      Attr.deriveXCheckHash].count Attr.deriveXCheckHash = 2 :=
  ⟨rfl, rfl, by decide⟩

/-- C8 (amended): every enabled, unmarked struct/enum/union gains exactly
one hash-derivation marker appended after all pre-existing attributes; the
pass is however not idempotent on data types — a second enabled run over
the result appends another copy of the marker. -/
theorem c8_datatype_append (cfg : CrossCheckConfig) (xargs : Bool)
    (ident : String) (attrs : List Attr) (k : DataKind)
    (hen : cfg.enabled = true) (hm : attrs.any Attr.isCrossCheck = false) :
    foldItemSimple cfg xargs (.mk ident attrs (.dataType k)) =
      .ok (.mk ident (attrs ++ [Attr.deriveXCheckHash]) (.dataType k)) ∧
    foldItemSimple cfg xargs
        (.mk ident (attrs ++ [Attr.deriveXCheckHash]) (.dataType k)) =
      .ok (.mk ident (attrs ++ [Attr.deriveXCheckHash] ++
        [Attr.deriveXCheckHash]) (.dataType k)) := by
  constructor
  · simp [foldItemSimple, hen, hm]
  · have hm2 : (attrs ++ [Attr.deriveXCheckHash]).any Attr.isCrossCheck = false := by
      rw [any_isCrossCheck_append_derive]
      exact hm
    simp [foldItemSimple, hen, hm2]

/-- Witness for C8 (amended) on a concrete enum. -/
theorem c8_datatype_append_witness :
    foldItemSimple ⟨true, none, none⟩ false
        (.mk "T" [Attr.named "repr"] (.dataType .enumKind)) =
      .ok (.mk "T" ([Attr.named "repr"] ++ [Attr.deriveXCheckHash])
        (.dataType .enumKind)) ∧
    foldItemSimple ⟨true, none, none⟩ false
        (.mk "T" ([Attr.named "repr"] ++ [Attr.deriveXCheckHash])
          (.dataType .enumKind)) =
      .ok (.mk "T" ([Attr.named "repr"] ++ [Attr.deriveXCheckHash] ++
        [Attr.deriveXCheckHash]) (.dataType .enumKind)) :=
  c8_datatype_append ⟨true, none, none⟩ false "T" [Attr.named "repr"]
    .enumKind rfl rfl

/-- C9: with the argument-checking feature on, an instrumented function
with any parameter bound by a non-identifier (destructuring) pattern fails
hard with the unsupported-pattern error rather than being skipped, while an
all-identifier parameter list produces exactly one argument check per
parameter, in declared order. -/
theorem c9_unsupported_pattern :
    (∀ (cfg : CrossCheckConfig) (ident : String) (attrs : List Attr)
        (params : List Pat) (body : Block),
      cfg.enabled = true →
      attrs.any Attr.isCrossCheck = false →
      Pat.otherPat ∈ params →
      foldItemSimple cfg true (.mk ident attrs (.fnDecl params body)) =
        .error .unsupportedPattern) ∧
    (∀ params : List Pat, (∀ p ∈ params, ∃ n, p = Pat.identPat n) →
      mkArgChecks params = .ok (params.map argCheckOf)) := by
  constructor
  · intro cfg ident attrs params body hen hm hmem
    have he := mkArgChecks_error_of_other params hmem
    simp [foldItemSimple, hen, hm, he, Except.error_bind]
  · exact mkArgChecks_all_ident

/-- Witness for C9: a function whose second parameter is a destructuring
pattern fails, and a two-identifier parameter list yields its two checks. -/
theorem c9_unsupported_pattern_witness :
    foldItemSimple ⟨true, none, none⟩ true
        (.mk "f" [] (.fnDecl [Pat.identPat "a", Pat.otherPat] (.mk []))) =
      .error .unsupportedPattern ∧
    mkArgChecks [Pat.identPat "a", Pat.identPat "b"] =
      .ok ([Pat.identPat "a", Pat.identPat "b"].map argCheckOf) := by
  refine ⟨c9_unsupported_pattern.1 ⟨true, none, none⟩ "f" []
    [Pat.identPat "a", Pat.otherPat] (.mk []) rfl rfl (by decide),
    c9_unsupported_pattern.2 [Pat.identPat "a", Pat.identPat "b"] ?_⟩
  intro p hp
  simp at hp
  rcases hp with h1 | h1 <;> subst h1
  · exact ⟨"a", rfl⟩
  · exact ⟨"b", rfl⟩

/-- C10: a bare-literal annotation argument is skipped outright; an `id`
argument whose shape is not `key = value` is skipped outright; a `name`
argument without a string value raises no error and leaves the fields of
the other keys (`enabled`, `id`) unchanged (its own `name` field is reset
to `none`). -/
theorem c10_malformed_args_skipped :
    (∀ (cfg : CrossCheckConfig) (lit : LitKind),
      CrossCheckConfig.applyArg cfg (.literal lit) = .ok cfg) ∧
    (∀ (cfg : CrossCheckConfig) (node : MetaItemKind),
      (∀ lit, node ≠ .nameValue lit) →
      CrossCheckConfig.applyArg cfg (.metaItem (.mk "id" node)) = .ok cfg) ∧
    (∀ (cfg : CrossCheckConfig) (node : MetaItemKind),
      (MetaItem.mk "name" node).valueStr = none →
      CrossCheckConfig.applyArg cfg (.metaItem (.mk "name" node)) =
        .ok ⟨cfg.enabled, none, cfg.id⟩) := by
  refine ⟨fun cfg lit => rfl, ?_, ?_⟩
  · intro cfg node h
    cases node with
    | word => rfl
    | list items => rfl
    | nameValue lit => exact absurd rfl (h lit)
  · intro cfg node h
    simp [CrossCheckConfig.applyArg, MetaItem.mname, h]

/-- Witness for C10: a bare integer literal and a bare `id` word leave an
accumulated configuration untouched; a bare `name` word leaves `enabled`
and `id` untouched (resetting only `name`). -/
theorem c10_malformed_args_skipped_witness :
    CrossCheckConfig.applyArg ⟨false, some "x", some 5⟩ (.literal (.int 3)) =
      .ok ⟨false, some "x", some 5⟩ ∧
    CrossCheckConfig.applyArg ⟨false, some "x", some 5⟩
        (.metaItem (.mk "id" .word)) = .ok ⟨false, some "x", some 5⟩ ∧
    CrossCheckConfig.applyArg ⟨false, some "x", some 5⟩
        (.metaItem (.mk "name" .word)) = .ok ⟨false, none, some 5⟩ :=
  ⟨c10_malformed_args_skipped.1 ⟨false, some "x", some 5⟩ (.int 3),
   c10_malformed_args_skipped.2.1 ⟨false, some "x", some 5⟩ .word
     (fun lit h => by cases h),
   c10_malformed_args_skipped.2.2 ⟨false, some "x", some 5⟩ .word rfl⟩
